import Mathlib

/-!
Verification of the AV1 Dependency Descriptor RTP header extension parser
(`src/rtp/dependency_descriptor.rs`) against its natural-language specification.

The Rust source is shallowly embedded: byte buffers are `List Nat` (each entry a
byte value), machine integers are `Nat` with explicit wrap-around where the source
relies on it, `&mut self` readers become explicit state passing (a failed read
returns `none` together with the possibly advanced reader state, exactly like the
mutated `self` in Rust), and fallible parsing returns `Except ParseError`.
Unbounded source `loop`s (template layers, template fdiffs, frame fdiffs) are
given explicit fuel at the call site, initialized to more than the number of bits
remaining in the stream; since each iteration consumes at least one bit, the fuel
never runs out before the stream does, and the out-of-fuel arm returns
`NotEnoughBits`, which is also what the exhausted stream would produce.
-/

namespace DepDesc

/-! ## BitStream reader (`struct BitStream` in the source) -/

/-- State of the bit reader: remaining bytes and the bit cursor into the first
byte (`bytes: &[u8]`, `bit_index: u8`). -/
structure BitStream where
  bytes : List Nat
  bit_index : Nat
deriving DecidableEq, Repr

namespace BitStream

/-- Source `BitStream::new`. -/
def new (bytes : List Nat) : BitStream := ⟨bytes, 0⟩

/-- Source `BitStream::is_empty`: true when no whole bytes remain. -/
def is_empty (s : BitStream) : Bool := s.bytes.isEmpty

/-- Number of unread bits (well defined when `bit_index < 8`). Used for fuel and
for the characterization of read failure; not itself a source function. -/
def remaining (s : BitStream) : Nat := 8 * s.bytes.length - s.bit_index

/-- Source `BitStream::read_ms_bit_of_byte`. -/
def read_ms_bit_of_byte (byte : Nat) (bit_index : Nat) : Option Bool :=
  if bit_index > 7 then none
  else some (decide (0 < (byte >>> (7 - bit_index)) &&& 1))

/-- Source `BitStream::read_ms_bits_of_byte` over the range `start..stop`
(`bit_index_range.len()` is `stop - start`). -/
def read_ms_bits_of_byte (byte : Nat) (start stop : Nat) : Option Nat :=
  if stop = 0 ∨ stop > 8 then none
  else some ((byte >>> (8 - stop)) &&& (0xff >>> (8 - (stop - start))))

/-- Source `BitStream::read_bit`.  Mirrors the mutation order of the Rust code:
the state is advanced even when the extracted bit is `none` (which can only
happen when `bit_index > 7`, outside the reader invariant). -/
def read_bit (s : BitStream) : Option Bool × BitStream :=
  match s.bytes with
  | [] => (none, s)
  | byte0 :: after_byte0 =>
    let bit := read_ms_bit_of_byte byte0 s.bit_index
    if s.bit_index + 1 ≥ 8 then (bit, ⟨after_byte0, 0⟩)
    else (bit, ⟨s.bytes, s.bit_index + 1⟩)

/-- Source `BitStream::read_u8_up_until_end_of_byte0`.  The `checked_add` in the
source fails only when `bit_index + bit_count > 255 > 8`, which the `> 8` guard
below also rejects, before any mutation. -/
def read_u8_up_until_end_of_byte0 (s : BitStream) (bit_count : Nat) :
    Option Nat × BitStream :=
  if bit_count = 0 then (some 0, s)
  else
    let bit_index_end := s.bit_index + bit_count
    if bit_index_end > 8 then (none, s)
    else
      match s.bytes with
      | [] => (none, s)
      | byte0 :: after_byte0 =>
        let bits := read_ms_bits_of_byte byte0 s.bit_index bit_index_end
        if s.bit_index + bit_count ≥ 8 then (bits, ⟨after_byte0, 0⟩)
        else (bits, ⟨s.bytes, s.bit_index + bit_count⟩)

/-- Source `BitStream::read_aligned_bytes`. -/
def read_aligned_bytes (s : BitStream) (byte_count : Nat) :
    Option (List Nat) × BitStream :=
  if s.bit_index > 0 then (none, s)
  else if byte_count > s.bytes.length then (none, s)
  else (some (s.bytes.take byte_count), ⟨s.bytes.drop byte_count, s.bit_index⟩)

/-- Source `BitStream::u32_from_bytes` (`wrapping_shl` wraps the value modulo
`2^32`; the shift amount 8 is below 32 so it is not itself wrapped). -/
def u32_from_bytes (bytes : List Nat) : Nat :=
  bytes.foldl (fun result byte => ((result <<< 8) % 2 ^ 32) ||| byte) 0

/-- Source `BitStream::read_u32_from_aligned_bytes`. -/
def read_u32_from_aligned_bytes (s : BitStream) (byte_count : Nat) :
    Option Nat × BitStream :=
  if byte_count = 0 then (some 0, s)
  else
    match read_aligned_bytes s byte_count with
    | (none, s1) => (none, s1)
    | (some bytes, s1) => (some (u32_from_bytes bytes), s1)

/-- Source `BitStream::read_u32`: three spans (tail of the current byte, whole
aligned bytes, head of the final byte).  `saturating_sub` on `Nat` is plain
subtraction.  A failing span returns `none` while keeping whatever state the
earlier spans already consumed, exactly like the `?` operator on `&mut self`. -/
def read_u32 (s : BitStream) (bit_count : Nat) : Option Nat × BitStream :=
  let bit_count_remaining_in_byte0 := 8 - s.bit_index
  let left_bit_count := min bit_count_remaining_in_byte0 bit_count
  let right_bit_count := (bit_count - bit_count_remaining_in_byte0) % 8
  let middle_bit_count := bit_count - left_bit_count - right_bit_count
  let middle_byte_count := middle_bit_count / 8
  match read_u8_up_until_end_of_byte0 s left_bit_count with
  | (none, s1) => (none, s1)
  | (some left, s1) =>
    match read_u32_from_aligned_bytes s1 middle_byte_count with
    | (none, s2) => (none, s2)
    | (some middle, s2) =>
      match read_u8_up_until_end_of_byte0 s2 right_bit_count with
      | (none, s3) => (none, s3)
      | (some right, s3) =>
        (some ((((left <<< middle_bit_count) ||| middle) <<< right_bit_count) |||
            right), s3)

/-- Source `BitStream::read_ls_bit_of_u32`. -/
def read_ls_bit_of_u32 (word : Nat) (bit_index : Nat) : Option Bool :=
  if bit_index > 32 then none
  else some (decide (0 < (word >>> bit_index) &&& 1))

end BitStream

/-! ## Data model -/

/-- Source `enum ParseError`. -/
inductive ParseError
  | NotEnoughBits
  | UnknownSharedStructure
  | UnknownActiveDecodeTargetBitmask
  | InvalidTemplateId
  | InvalidSpatialId
  | InvalidTemporalId
deriving DecidableEq, Repr

/-- Source `enum DecodeTargetIndication`. -/
inductive DecodeTargetIndication
  | NotPresent
  | Discardable
  | Switch
  | Required
deriving DecidableEq, Repr

/-- Source `DecodeTargetIndication::from_u2`. -/
def DecodeTargetIndication.from_u2 (u2 : Nat) : Option DecodeTargetIndication :=
  match u2 with
  | 0 => some .NotPresent
  | 1 => some .Discardable
  | 2 => some .Switch
  | 3 => some .Required
  | _ => none

/-- Source `struct Resolution`. -/
structure Resolution where
  max_render_width : Nat
  max_render_height : Nat
deriving DecidableEq, Repr

/-- Source `struct SharedStructureTemplate`. -/
structure SharedStructureTemplate where
  spatial_id : Nat
  temporal_id : Nat
  decode_target_indication_by_decode_target_index : List DecodeTargetIndication
  referred_frame_number_diffs : List Nat
  previous_frame_number_diff_by_chain_index : List Nat
deriving DecidableEq, Repr

/-- Source `struct SharedStructure`. -/
structure SharedStructure where
  decode_target_count : Nat
  chain_count : Nat
  protecting_chain_index_by_decode_target_index : List Nat
  resolution_by_spatial_id : Option (List Resolution)
  template_by_id_minus_offset : List SharedStructureTemplate
  template_id_offset : Nat
deriving DecidableEq, Repr

/-- Source `struct DecodeTarget`. -/
structure DecodeTarget where
  spatial_id : Nat
  temporal_id : Nat
  active : Bool
  indication : DecodeTargetIndication
  protecting_chain_index : Option Nat
deriving DecidableEq, Repr

/-- Source `struct ParsedDependencyDescriptor` (the `udpated_…` field name
reproduces the source's spelling). -/
structure ParsedDependencyDescriptor where
  frame_number : Nat
  spatial_id : Nat
  temporal_id : Nat
  resolution : Option Resolution
  referred_frame_number_diffs : List Nat
  previous_frame_number_diff_by_chain_index : List Nat
  first_packet_of_frame : Bool
  last_packet_of_frame : Bool
  decode_targets : List DecodeTarget
  updated_shared_structure : Option SharedStructure
  udpated_active_decode_targets_bitmask : Option Nat
deriving DecidableEq, Repr

/-- Source `struct MandatoryFields`. -/
structure MandatoryFields where
  start_of_frame : Bool
  end_of_frame : Bool
  frame_number : Nat
  template_id : Nat
deriving DecidableEq, Repr

/-- Source `struct CustomFlags`. -/
structure CustomFlags where
  dtis : Bool
  fdiffs : Bool
  chains : Bool
deriving DecidableEq, Repr

/-- Source `struct ExtendedFields`. -/
structure ExtendedFields where
  shared_structure : Option SharedStructure
  active_decode_targets_bitmask : Option Nat
deriving DecidableEq, Repr

/-- Source `struct FrameDependencyDefinition`. -/
structure FrameDependencyDefinition where
  spatial_id : Nat
  temporal_id : Nat
  decode_target_indication_by_decode_target_index : List DecodeTargetIndication
  referred_frame_number_diffs : List Nat
  previous_frame_number_diff_by_chain_index : List Nat
  resolution : Option Resolution
deriving DecidableEq, Repr

/-- Source `SharedStructure::decode_target_layers`: for each decode target, the
component-wise running maximum over templates whose DTI for that target is
present and not `NotPresent`, starting from `(0, 0)` (the two `for` loops with
mutable `spatial_id`/`temporal_id` become a `foldl` over the template list). -/
def SharedStructure.decode_target_layers (S : SharedStructure) : List (Nat × Nat) :=
  (List.range S.decode_target_count).map (fun decode_target_index =>
    S.template_by_id_minus_offset.foldl
      (fun (acc : Nat × Nat) template =>
        match template.decode_target_indication_by_decode_target_index[decode_target_index]? with
        | some dti =>
          if dti ≠ DecodeTargetIndication.NotPresent then
            (max acc.1 template.spatial_id, max acc.2 template.temporal_id)
          else acc
        | none => acc)
      (0, 0))

/-! ## Parser -/

namespace Parser

/-- Source `Parser::f1`. -/
def f1 (s : BitStream) : Except ParseError (Bool × BitStream) :=
  match s.read_bit with
  | (some bit, s1) => .ok (bit, s1)
  | (none, _) => .error .NotEnoughBits

/-- Source `Parser::f`. -/
def f (n : Nat) (s : BitStream) : Except ParseError (Nat × BitStream) :=
  match s.read_u32 n with
  | (some v, s1) => .ok (v, s1)
  | (none, _) => .error .NotEnoughBits

/-- Bit width of a `u8` value, so that `u8_bit_width n = 8 - n.leading_zeros()`
for `n ≤ 255` (the hardware count-leading-zeros unrolled). -/
def u8_bit_width (n : Nat) : Nat :=
  if n ≥ 128 then 8
  else if n ≥ 64 then 7
  else if n ≥ 32 then 6
  else if n ≥ 16 then 5
  else if n ≥ 8 then 4
  else if n ≥ 4 then 3
  else if n ≥ 2 then 2
  else if n ≥ 1 then 1
  else 0

/-- Source `Parser::ns`.  `w = 8 - possible_values_count.leading_zeros()` is the
bit width of the (nonzero, `≤ 32 + 1`) argument.  All intermediate values stay
below the `u16`/`u8` bounds the source relies on (`v < 2^(w-1) ≤ 128`, result
`≤ possible_values_count - 1`). -/
def ns (possible_values_count : Nat) (s : BitStream) :
    Except ParseError (Nat × BitStream) :=
  if possible_values_count = 0 then .ok (0, s)
  else
    let w := u8_bit_width possible_values_count
    let m := (1 <<< w) - possible_values_count
    match f (w - 1) s with
    | .error e => .error e
    | .ok (v, s1) =>
      if v < m then .ok (v, s1)
      else
        match f 1 s1 with
        | .error e => .error e
        | .ok (extra_bit, s2) => .ok ((v <<< 1) - m + extra_bit, s2)

/-- Source `Parser::mandatory_descriptor_fields`. -/
def mandatory_descriptor_fields (s : BitStream) :
    Except ParseError (MandatoryFields × BitStream) :=
  match f1 s with
  | .error e => .error e
  | .ok (start_of_frame, s1) =>
    match f1 s1 with
    | .error e => .error e
    | .ok (end_of_frame, s2) =>
      match f 6 s2 with
      | .error e => .error e
      | .ok (template_id, s3) =>
        match f 16 s3 with
        | .error e => .error e
        | .ok (frame_number, s4) =>
          .ok ({ start_of_frame, end_of_frame, frame_number, template_id }, s4)

/-- Loop body of source `Parser::template_layers`.  The source keeps all
templates in one growing vector and reads `templates.last().unwrap()` each
round; here the last template (`prev`) is carried separately, the real vector
being `templates ++ [prev]` (never empty, so the `unwrap` cannot panic).
`checked_add` on the `u8` layer ids fails exactly when the id is 255.  A 2-bit
read only yields 0, 1, 2 or 3, so the final branch is the `3 => break` arm
(the source marks larger values `unreachable!`). -/
def template_layers_loop (fuel : Nat) (templates : List SharedStructureTemplate)
    (prev : SharedStructureTemplate) (s : BitStream) :
    Except ParseError (List SharedStructureTemplate × BitStream) :=
  match fuel with
  | 0 => .error .NotEnoughBits
  | fuel + 1 =>
    match f 2 s with
    | .error e => .error e
    | .ok (next_layer_idc, s1) =>
      if next_layer_idc = 0 then
        template_layers_loop fuel (templates ++ [prev]) prev s1
      else if next_layer_idc = 1 then
        if prev.temporal_id ≥ 255 then .error .InvalidTemporalId
        else
          template_layers_loop fuel (templates ++ [prev])
            { prev with temporal_id := prev.temporal_id + 1 } s1
      else if next_layer_idc = 2 then
        if prev.temporal_id ≥ 255 then .error .InvalidSpatialId
        else
          template_layers_loop fuel (templates ++ [prev])
            { prev with spatial_id := prev.temporal_id + 1, temporal_id := 0 } s1
      else .ok (templates ++ [prev], s1)

/-- Source `Parser::template_layers`: start from the single template
`(spatial_id = 0, temporal_id = 0)` and expand by `next_layer_idc` codes. -/
def template_layers (s : BitStream) :
    Except ParseError (List SharedStructureTemplate × BitStream) :=
  template_layers_loop (s.remaining + 1) []
    { spatial_id := 0, temporal_id := 0,
      decode_target_indication_by_decode_target_index := [],
      referred_frame_number_diffs := [],
      previous_frame_number_diff_by_chain_index := [] } s

/-- Inner loop of source `Parser::render_resolutions` (`for _ in 0..=max` runs
`count = max_spatial_id + 1` times). -/
def render_resolutions_loop (count : Nat) (acc : List Resolution) (s : BitStream) :
    Except ParseError (List Resolution × BitStream) :=
  match count with
  | 0 => .ok (acc, s)
  | count + 1 =>
    match f 16 s with
    | .error e => .error e
    | .ok (max_render_width_minus_1, s1) =>
      match f 16 s1 with
      | .error e => .error e
      | .ok (max_render_height_minus_1, s2) =>
        render_resolutions_loop count
          (acc ++ [{ max_render_width := max_render_width_minus_1 + 1,
                     max_render_height := max_render_height_minus_1 + 1 }]) s2

/-- Source `Parser::render_resolutions`. -/
def render_resolutions (max_spatial_id : Nat) (s : BitStream) :
    Except ParseError (List Resolution × BitStream) :=
  render_resolutions_loop (max_spatial_id + 1) [] s

/-- Inner loop of source `Parser::template_dtis` and `Parser::frame_dtis`:
read `count` 2-bit DTI codes, appending to `acc`.  `f 2` only yields values
below 4, for which `from_u2` is always `some`; the `none` arm models the
source's (unreachable) `unwrap` panic as an abort. -/
def read_dtis_loop (count : Nat) (acc : List DecodeTargetIndication) (s : BitStream) :
    Except ParseError (List DecodeTargetIndication × BitStream) :=
  match count with
  | 0 => .ok (acc, s)
  | count + 1 =>
    match f 2 s with
    | .error e => .error e
    | .ok (dti_code, s1) =>
      match DecodeTargetIndication.from_u2 dti_code with
      | some decode_target_indication =>
        read_dtis_loop count (acc ++ [decode_target_indication]) s1
      | none => .error .NotEnoughBits

/-- Source `Parser::template_dtis`: for each template, read
`decode_target_count` DTI codes and append them to the template's DTI list. -/
def template_dtis (templates : List SharedStructureTemplate)
    (decode_target_count : Nat) (s : BitStream) :
    Except ParseError (List SharedStructureTemplate × BitStream) :=
  match templates with
  | [] => .ok ([], s)
  | template :: rest =>
    match read_dtis_loop decode_target_count
        template.decode_target_indication_by_decode_target_index s with
    | .error e => .error e
    | .ok (dtis, s1) =>
      match template_dtis rest decode_target_count s1 with
      | .error e => .error e
      | .ok (rest1, s2) =>
        .ok ({ template with
                decode_target_indication_by_decode_target_index := dtis } :: rest1, s2)

/-- Source `Parser::frame_dtis`. -/
def frame_dtis (decode_target_count : Nat) (s : BitStream) :
    Except ParseError (List DecodeTargetIndication × BitStream) :=
  read_dtis_loop decode_target_count [] s

/-- Loop body of source `Parser::template_fdiffs` for one template: read a flag
bit; while it is 1, read a 4-bit `fdiff_minus_one` and append `fdiff + 1`. -/
def template_fdiffs_loop (fuel : Nat) (acc : List Nat) (s : BitStream) :
    Except ParseError (List Nat × BitStream) :=
  match fuel with
  | 0 => .error .NotEnoughBits
  | fuel + 1 =>
    match f1 s with
    | .error e => .error e
    | .ok (fdiff_follows_flag, s1) =>
      if fdiff_follows_flag then
        match f 4 s1 with
        | .error e => .error e
        | .ok (fdiff_minus_one, s2) =>
          template_fdiffs_loop fuel (acc ++ [fdiff_minus_one + 1]) s2
      else .ok (acc, s1)

/-- Source `Parser::template_fdiffs`: run the fdiff loop once per template. -/
def template_fdiffs (templates : List SharedStructureTemplate) (s : BitStream) :
    Except ParseError (List SharedStructureTemplate × BitStream) :=
  match templates with
  | [] => .ok ([], s)
  | template :: rest =>
    match template_fdiffs_loop (s.remaining + 1)
        template.referred_frame_number_diffs s with
    | .error e => .error e
    | .ok (fdiffs, s1) =>
      match template_fdiffs rest s1 with
      | .error e => .error e
      | .ok (rest1, s2) =>
        .ok ({ template with referred_frame_number_diffs := fdiffs } :: rest1, s2)

/-- Loop body of source `Parser::frame_fdiffs`: read a 2-bit size; while it is
nonzero, read `4 * size` bits as `fdiff_minus_one` and append `fdiff + 1`. -/
def frame_fdiffs_loop (fuel : Nat) (acc : List Nat) (s : BitStream) :
    Except ParseError (List Nat × BitStream) :=
  match fuel with
  | 0 => .error .NotEnoughBits
  | fuel + 1 =>
    match f 2 s with
    | .error e => .error e
    | .ok (next_fdiff_size, s1) =>
      let frame_diff_size := next_fdiff_size * 4
      if frame_diff_size = 0 then .ok (acc, s1)
      else
        match f frame_diff_size s1 with
        | .error e => .error e
        | .ok (fdiff_minus_one, s2) =>
          frame_fdiffs_loop fuel (acc ++ [fdiff_minus_one + 1]) s2

/-- Source `Parser::frame_fdiffs`. -/
def frame_fdiffs (s : BitStream) : Except ParseError (List Nat × BitStream) :=
  frame_fdiffs_loop (s.remaining + 1) [] s

/-- First loop of source `Parser::template_chains`: for each decode target read
`ns(chain_count)` as its protecting chain index. -/
def protecting_chain_loop (count : Nat) (chain_count : Nat) (acc : List Nat)
    (s : BitStream) : Except ParseError (List Nat × BitStream) :=
  match count with
  | 0 => .ok (acc, s)
  | count + 1 =>
    match ns chain_count s with
    | .error e => .error e
    | .ok (protecting_chain_index, s1) =>
      protecting_chain_loop count chain_count (acc ++ [protecting_chain_index]) s1

/-- Inner loop of the second half of source `Parser::template_chains`: read
`chain_count` 4-bit diffs for one template. -/
def template_chain_fdiffs_loop (count : Nat) (acc : List Nat) (s : BitStream) :
    Except ParseError (List Nat × BitStream) :=
  match count with
  | 0 => .ok (acc, s)
  | count + 1 =>
    match f 4 s with
    | .error e => .error e
    | .ok (previous_frame_number_diff, s1) =>
      template_chain_fdiffs_loop count (acc ++ [previous_frame_number_diff]) s1

/-- Second loop of source `Parser::template_chains`: per template, append
`chain_count` 4-bit diffs to its chain-diff list. -/
def template_chain_fdiffs (templates : List SharedStructureTemplate)
    (chain_count : Nat) (s : BitStream) :
    Except ParseError (List SharedStructureTemplate × BitStream) :=
  match templates with
  | [] => .ok ([], s)
  | template :: rest =>
    match template_chain_fdiffs_loop chain_count
        template.previous_frame_number_diff_by_chain_index s with
    | .error e => .error e
    | .ok (diffs, s1) =>
      match template_chain_fdiffs rest chain_count s1 with
      | .error e => .error e
      | .ok (rest1, s2) =>
        .ok ({ template with
                previous_frame_number_diff_by_chain_index := diffs } :: rest1, s2)

/-- Source `Parser::template_chains`.  Returns `(chain_count, protecting chain
indices)` together with the updated templates (the source mutates the template
vector in place). -/
def template_chains (templates : List SharedStructureTemplate)
    (decode_target_count : Nat) (s : BitStream) :
    Except ParseError ((Nat × List Nat) × List SharedStructureTemplate × BitStream) :=
  match ns (decode_target_count + 1) s with
  | .error e => .error e
  | .ok (chain_count, s1) =>
    if chain_count = 0 then .ok ((chain_count, []), templates, s1)
    else
      match protecting_chain_loop decode_target_count chain_count [] s1 with
      | .error e => .error e
      | .ok (protecting_chain_index_by_decode_target_index, s2) =>
        match template_chain_fdiffs templates chain_count s2 with
        | .error e => .error e
        | .ok (templates1, s3) =>
          .ok ((chain_count, protecting_chain_index_by_decode_target_index),
            templates1, s3)

/-- Loop of source `Parser::frame_chains`: read `chain_count` 8-bit diffs. -/
def frame_chains_loop (count : Nat) (acc : List Nat) (s : BitStream) :
    Except ParseError (List Nat × BitStream) :=
  match count with
  | 0 => .ok (acc, s)
  | count + 1 =>
    match f 8 s with
    | .error e => .error e
    | .ok (frame_chain_fdiff, s1) =>
      frame_chains_loop count (acc ++ [frame_chain_fdiff]) s1

/-- Source `Parser::frame_chains`. -/
def frame_chains (chain_count : Nat) (s : BitStream) :
    Except ParseError (List Nat × BitStream) :=
  frame_chains_loop chain_count [] s

/-- The `resolutions_present_flag` branch of source
`Parser::template_dependency_structure`: when the flag is set, read resolutions
for `max_spatial_id + 1` spatial layers (the maximum over the templates), or
produce `Some(vec![])` when there are no templates; when the flag is clear,
produce `None`. -/
def resolutions_part (resolutions_present_flag : Bool)
    (templates : List SharedStructureTemplate) (s : BitStream) :
    Except ParseError (Option (List Resolution) × BitStream) :=
  if resolutions_present_flag then
    match (templates.map (fun template => template.spatial_id)).max? with
    | some max_spatial_id =>
      match render_resolutions max_spatial_id s with
      | .error e => .error e
      | .ok (resolutions, s1) => .ok (some resolutions, s1)
    | none => .ok (some [], s)
  else .ok (none, s)

/-- Source `Parser::template_dependency_structure`. -/
def template_dependency_structure (s : BitStream) :
    Except ParseError (SharedStructure × BitStream) :=
  match f 6 s with
  | .error e => .error e
  | .ok (template_id_offset, s1) =>
    match f 5 s1 with
    | .error e => .error e
    | .ok (dt_cnt_minus_one, s2) =>
      let decode_target_count := dt_cnt_minus_one + 1
      match template_layers s2 with
      | .error e => .error e
      | .ok (templates0, s3) =>
        match template_dtis templates0 decode_target_count s3 with
        | .error e => .error e
        | .ok (templates1, s4) =>
          match template_fdiffs templates1 s4 with
          | .error e => .error e
          | .ok (templates2, s5) =>
            match template_chains templates2 decode_target_count s5 with
            | .error e => .error e
            | .ok ((chain_count, protecting_chain_index_by_decode_target_index),
                templates3, s6) =>
              match f1 s6 with
              | .error e => .error e
              | .ok (resolutions_present_flag, s7) =>
                match resolutions_part resolutions_present_flag templates3 s7 with
                | .error e => .error e
                | .ok (resolution_by_spatial_id, s9) =>
                  .ok ({ decode_target_count, chain_count,
                         protecting_chain_index_by_decode_target_index,
                         resolution_by_spatial_id,
                         template_by_id_minus_offset := templates3,
                         template_id_offset }, s9)

/-- Source `Parser::frame_dependency_definition`.  With `template_id` and
`template_id_offset` both below 64 (they come from 6-bit reads), the source's
`u8` expression `template_id + 64 - template_id_offset` never wraps, so plain
`Nat` arithmetic coincides with it. -/
def frame_dependency_definition (shared_structure : SharedStructure)
    (template_id : Nat) (custom_flags : CustomFlags) (s : BitStream) :
    Except ParseError (FrameDependencyDefinition × BitStream) :=
  let template_id_minus_offset :=
    (template_id + 64 - shared_structure.template_id_offset) % 64
  match shared_structure.template_by_id_minus_offset[template_id_minus_offset]? with
  | none => .error .InvalidTemplateId
  | some template =>
    match (if custom_flags.dtis then
        frame_dtis shared_structure.decode_target_count s
      else .ok (template.decode_target_indication_by_decode_target_index, s)) with
    | .error e => .error e
    | .ok (decode_target_indication_by_decode_target_index, s1) =>
      match (if custom_flags.fdiffs then frame_fdiffs s1
        else .ok (template.referred_frame_number_diffs, s1)) with
      | .error e => .error e
      | .ok (referred_frame_number_diffs, s2) =>
        match (if custom_flags.chains then
            frame_chains shared_structure.chain_count s2
          else .ok (template.previous_frame_number_diff_by_chain_index, s2)) with
        | .error e => .error e
        | .ok (previous_frame_number_diff_by_chain_index, s3) =>
          let resolution :=
            shared_structure.resolution_by_spatial_id.bind
              (fun resolution_by_spatial_id =>
                resolution_by_spatial_id[template.spatial_id]?)
          .ok ({ spatial_id := template.spatial_id,
                 temporal_id := template.temporal_id,
                 decode_target_indication_by_decode_target_index,
                 referred_frame_number_diffs,
                 previous_frame_number_diff_by_chain_index,
                 resolution }, s3)

/-- Source `Parser::extended_descriptor_fields`.  Note the source only reads
`active_decode_targets_bitmask` when a shared structure was decoded from this
very packet (`if let Some(shared_structure) = &shared_structure`).  The all-ones
default `((1u64 << decode_target_count) - 1) as u32` is lossless because
`decode_target_count ≤ 32`. -/
def extended_descriptor_fields (s : BitStream) :
    Except ParseError ((CustomFlags × Option ExtendedFields) × BitStream) :=
  match f1 s with
  | .error e => .error e
  | .ok (template_dependency_structure_present_flag, s1) =>
    match f1 s1 with
    | .error e => .error e
    | .ok (active_decode_targets_present_flag, s2) =>
      match f1 s2 with
      | .error e => .error e
      | .ok (custom_dtis_flag, s3) =>
        match f1 s3 with
        | .error e => .error e
        | .ok (custom_fdiffs_flag, s4) =>
          match f1 s4 with
          | .error e => .error e
          | .ok (custom_chains_flag, s5) =>
            match ((if template_dependency_structure_present_flag then
                match template_dependency_structure s5 with
                | .error e => .error e
                | .ok (structure1, s6) =>
                  .ok ((some structure1,
                    some ((1 <<< structure1.decode_target_count) - 1)), s6)
              else .ok ((none, none), s5)) :
                Except ParseError ((Option SharedStructure × Option Nat) × BitStream)) with
            | .error e => .error e
            | .ok ((shared_structure, bitmask0), s7) =>
              match ((if active_decode_targets_present_flag then
                  match shared_structure with
                  | some structure1 =>
                    match f structure1.decode_target_count s7 with
                    | .error e => .error e
                    | .ok (bitmask, s8) => .ok (some bitmask, s8)
                  | none => .ok (bitmask0, s7)
                else .ok (bitmask0, s7)) :
                  Except ParseError (Option Nat × BitStream)) with
              | .error e => .error e
              | .ok (active_decode_targets_bitmask, s9) =>
                .ok (({ dtis := custom_dtis_flag, fdiffs := custom_fdiffs_flag,
                        chains := custom_chains_flag },
                  some { shared_structure, active_decode_targets_bitmask }), s9)

/-- Source `Parser::no_extended_descriptor_fields`. -/
def no_extended_descriptor_fields : CustomFlags × Option ExtendedFields :=
  ({ dtis := false, fdiffs := false, chains := false }, none)

/-- The first half of source `Parser::dependency_descriptor`: mandatory fields,
then extended fields when any whole byte remains. -/
def first_phase (s : BitStream) :
    Except ParseError ((MandatoryFields × CustomFlags × Option ExtendedFields) × BitStream) :=
  match mandatory_descriptor_fields s with
  | .error e => .error e
  | .ok (mandatory_fields, s1) =>
    if s1.is_empty then
      .ok ((mandatory_fields, no_extended_descriptor_fields.1,
        no_extended_descriptor_fields.2), s1)
    else
      match extended_descriptor_fields s1 with
      | .error e => .error e
      | .ok ((custom_flags, extended_fields), s2) =>
        .ok ((mandatory_fields, custom_flags, extended_fields), s2)

/-- Source `Parser::dependency_descriptor`. -/
def dependency_descriptor (latest_shared_structure : Option SharedStructure)
    (latest_active_decode_targets_bitmask : Option Nat) (s : BitStream) :
    Except ParseError (ParsedDependencyDescriptor × BitStream) :=
  match first_phase s with
  | .error e => .error e
  | .ok ((mandatory_fields, custom_flags, extended_fields), s1) =>
    match (extended_fields.bind ExtendedFields.shared_structure).or
        latest_shared_structure with
    | none => .error .UnknownSharedStructure
    | some shared_structure =>
      match (extended_fields.bind ExtendedFields.active_decode_targets_bitmask).or
          latest_active_decode_targets_bitmask with
      | none => .error .UnknownActiveDecodeTargetBitmask
      | some active_decode_targets_bitmask =>
        match frame_dependency_definition shared_structure
            mandatory_fields.template_id custom_flags s1 with
        | .error e => .error e
        | .ok (definition, s2) =>
          let decode_targets : List DecodeTarget :=
            shared_structure.decode_target_layers.enum.map
              (fun (p : Nat × Nat × Nat) =>
                { spatial_id := p.2.1, temporal_id := p.2.2,
                  active := (BitStream.read_ls_bit_of_u32
                    active_decode_targets_bitmask p.1).getD false,
                  indication :=
                    (definition.decode_target_indication_by_decode_target_index[p.1]?).getD
                      .NotPresent,
                  protecting_chain_index :=
                    shared_structure.protecting_chain_index_by_decode_target_index[p.1]? })
          .ok ({ frame_number := mandatory_fields.frame_number,
                 spatial_id := definition.spatial_id,
                 temporal_id := definition.temporal_id,
                 resolution := definition.resolution,
                 referred_frame_number_diffs := definition.referred_frame_number_diffs,
                 previous_frame_number_diff_by_chain_index :=
                   definition.previous_frame_number_diff_by_chain_index,
                 first_packet_of_frame := mandatory_fields.start_of_frame,
                 last_packet_of_frame := mandatory_fields.end_of_frame,
                 decode_targets,
                 updated_shared_structure :=
                   extended_fields.bind ExtendedFields.shared_structure,
                 udpated_active_decode_targets_bitmask :=
                   extended_fields.bind ExtendedFields.active_decode_targets_bitmask }, s2)

end Parser

/-! ## Serialized form and extension framing glue -/

/-- Source `struct SerializedDepdendencyDescriptor` (source spelling). -/
structure SerializedDepdendencyDescriptor where
  bytes : List Nat
deriving DecidableEq, Repr

namespace SerializedDepdendencyDescriptor

/-- Source `SerializedDepdendencyDescriptor::as_bytes`. -/
def as_bytes (sdd : SerializedDepdendencyDescriptor) : List Nat := sdd.bytes

/-- Source `SerializedDepdendencyDescriptor::parse`. -/
def parse (sdd : SerializedDepdendencyDescriptor)
    (latest_shared_structure : Option SharedStructure)
    (latest_active_decode_targets_bitmask : Option Nat) :
    Except ParseError ParsedDependencyDescriptor :=
  match Parser.dependency_descriptor latest_shared_structure
      latest_active_decode_targets_bitmask (BitStream.new sdd.as_bytes) with
  | .error e => .error e
  | .ok (descriptor, _) => .ok descriptor

end SerializedDepdendencyDescriptor

/-- Modelled from the spec: `ExtensionValues` and its `user_values` typed map
are defined outside the provided sources (only their use sites are under
`src/`).  Spec §4.6: `parse_value(buf, sink)` wraps `buf` into a serialized
descriptor value and stores it into the extension's user-values map, and
`write_to`/`needs_two_byte_header` read that stored value back.  Only the
`SerializedDepdendencyDescriptor` entry of the map is ever touched here, so the
map is modelled as that one optional slot: `set` overwrites it, `get` returns
it. -/
structure ExtensionValues where
  serialized_dependency_descriptor : Option SerializedDepdendencyDescriptor
deriving DecidableEq, Repr

namespace Serializer

/-- Source `Serializer::needs_two_byte_header` (`impl ExtensionSerializer`). -/
def needs_two_byte_header (ev : ExtensionValues) : Bool :=
  match ev.serialized_dependency_descriptor with
  | none => false
  | some sdd => decide (sdd.bytes.length > 16)

/-- Source `Serializer::write_to`: returns the destination buffer contents after
the call together with the returned byte count (`buf` is `&mut [u8]`, so its
length never changes; too-small buffers are left untouched with return 0). -/
def write_to (buf : List Nat) (ev : ExtensionValues) : List Nat × Nat :=
  match ev.serialized_dependency_descriptor with
  | none => (buf, 0)
  | some sdd =>
    let len := sdd.as_bytes.length
    if buf.length < len then (buf, 0)
    else (sdd.as_bytes ++ buf.drop len, len)

/-- Source `Serializer::parse_value`: always succeeds, storing the wrapped
bytes. -/
def parse_value (buf : List Nat) (ev : ExtensionValues) : Bool × ExtensionValues :=
  (true, { ev with
    serialized_dependency_descriptor :=
      some { bytes := buf } })

/-- Source `Serializer::is_video`. -/
def is_video : Bool := true

/-- Source `Serializer::is_audio`. -/
def is_audio : Bool := false

end Serializer

/-! ## Claim-side definitions -/

/-- Ceiling of `log2 n` for `n ≤ 256` (0 for `n ≤ 1`), used by the spec's §8
statement about `ns(n)`; for `n ≥ 2` it is the bit width of `n - 1`. -/
def ceil_log2 (n : Nat) : Nat := if n ≤ 1 then 0 else Parser.u8_bit_width (n - 1)

/-- Result of running the `ns(n)` decoder on every bit-string of exactly
`⌈log2 n⌉` bits (spec §8): each string is placed in the high bits of a single
byte.  A decode failure (which never happens here) is marked with the
out-of-range value `n`. -/
def nsAll (n : Nat) : List Nat :=
  (List.range (2 ^ ceil_log2 n)).map (fun code =>
    match Parser.ns n ⟨[code <<< (8 - ceil_log2 n)], 0⟩ with
    | .ok (v, _) => v
    | .error _ => n)

/-- Exhaustive check of the (amended) §8 property of `ns(n)` for `n ∈ 1..=64`:
every produced value is in `0..n-1`, all `2^⌈log2 n⌉` strings decode, and value
`v` is produced twice when `v < 2^⌈log2 n⌉ - n` (its short codeword leaves one
bit unread, so both continuations map to it) and exactly once otherwise. -/
def nsAllCheck : Bool :=
  (List.range 64).all (fun k =>
    let n := k + 1
    let L := ceil_log2 n
    let out := nsAll n
    out.length == 2 ^ L && out.all (fun v => decide (v < n)) &&
      (List.range n).all (fun v => out.count v == if v + n < 2 ^ L then 2 else 1))

/-- Spec §4.5 decode-target derivation, stated in the spec's own words: the
component-wise maximum of `(spatial_id, temporal_id)` over the templates whose
DTI at index `i` exists and is not `NotPresent`, starting at `(0, 0)`. -/
def specDecodeTargetLayer (S : SharedStructure) (i : Nat) : Nat × Nat :=
  let referencing := S.template_by_id_minus_offset.filter (fun template =>
    match template.decode_target_indication_by_decode_target_index[i]? with
    | some dti => decide (dti ≠ DecodeTargetIndication.NotPresent)
    | none => false)
  ((referencing.map (fun template => template.spatial_id)).foldl max 0,
   (referencing.map (fun template => template.temporal_id)).foldl max 0)

/-- A concrete cached shared structure with one decode target, one template
(DTI `Discardable`), no chains and no resolutions — the structure produced by
spec §8 scenario 2 — used as caller-supplied context in concrete runs. -/
def Sone : SharedStructure :=
  { decode_target_count := 1, chain_count := 0,
    protecting_chain_index_by_decode_target_index := [],
    resolution_by_spatial_id := none,
    template_by_id_minus_offset :=
      [{ spatial_id := 0, temporal_id := 0,
         decode_target_indication_by_decode_target_index := [.Discardable],
         referred_frame_number_diffs := [],
         previous_frame_number_diff_by_chain_index := [] }],
    template_id_offset := 0 }

/-- The descriptor produced by parsing `0xC0 0x00 0x00` against `Sone` with
bitmask 1 (spec §8 scenario 3), used as a concrete witness value. -/
def dOne : ParsedDependencyDescriptor :=
  { frame_number := 0, spatial_id := 0, temporal_id := 0, resolution := none,
    referred_frame_number_diffs := [],
    previous_frame_number_diff_by_chain_index := [],
    first_packet_of_frame := true, last_packet_of_frame := true,
    decode_targets :=
      [{ spatial_id := 0, temporal_id := 0, active := true,
         indication := .Discardable, protecting_chain_index := none }],
    updated_shared_structure := none,
    udpated_active_decode_targets_bitmask := none }

/-! ## Theorems -/

/-- C1 (code bug evaluation): the packet `0xC0 0x00 0x00 0x40` has extended
fields with `template_dependency_structure_present_flag = 0` and
`active_decode_targets_present_flag = 1`, so per the wire format the parser
should read `decode_target_count` bits of bitmask from the stream and report
them in `updated_active_decode_targets_bitmask`.  The code instead skips the
read (it only reads the bitmask when a structure was decoded from the same
packet) and returns `none` for the updated bitmask even though the
active-present flag was set. -/
theorem c1_active_bitmask_not_read_without_structure :
    Except.map (fun d => d.udpated_active_decode_targets_bitmask)
      ((SerializedDepdendencyDescriptor.mk [0xC0, 0x00, 0x00, 0x40]).parse
        (some Sone) (some 1)) = Except.ok none := by rfl

/-- C2 (counterexample): `read_u32` of 9 bits on a one-byte buffer fails (the
read would cross the end), yet the reader state is advanced past the first
byte — the left span was consumed before the failing right span — so a failed
read does not leave the state unchanged. -/
theorem c2_read_u32_failure_consumes_state :
    BitStream.read_u32 ⟨[0], 0⟩ 9 = (none, ⟨[], 0⟩) ∧
      (⟨[], 0⟩ : BitStream) ≠ (⟨[0], 0⟩ : BitStream) := by
  exact ⟨rfl, by decide⟩

/-- C3 (counterexample): decoding the shared structure `0x00 0x1A 0x00`
(template_id_offset 0, one decode target, one template, DTI `Discardable`, no
fdiffs, `chain_count = 0`, no resolutions) succeeds with
`decode_target_count = 1` but an empty
`protecting_chain_index_by_decode_target_index`, so the length does not equal
`decode_target_count` when `chain_count = 0`. -/
theorem c3_protecting_chain_length_counterexample :
    Except.map (fun r => (r.1.decode_target_count, r.1.chain_count,
      r.1.protecting_chain_index_by_decode_target_index.length))
      (Parser.template_dependency_structure ⟨[0x00, 0x1A, 0x00], 0⟩) =
    Except.ok (1, 0, 0) := by rfl

/-- C5 (counterexample): for `n = 3` (not a power of two) the four 2-bit
strings decode to `0, 0, 1, 2`: the value 0 is produced twice (its one-bit
codeword leaves the second bit unread), so the values `0..n-1` are not each
covered once. -/
theorem c5_ns_three_counterexample :
    nsAll 3 = [0, 0, 1, 2] ∧ (nsAll 3).count 0 ≠ 1 := by
  exact ⟨rfl, by decide⟩

/-- Length of the protecting-chain read loop: each iteration appends one
index. -/
theorem protecting_chain_loop_length (count : Nat) : ∀ (chain_count : Nat)
    (acc : List Nat) (s : BitStream) (r : List Nat) (s1 : BitStream),
    Parser.protecting_chain_loop count chain_count acc s = .ok (r, s1) →
    r.length = acc.length + count := by
  induction count with
  | zero =>
    intro cc acc s r s1 h
    unfold Parser.protecting_chain_loop at h
    simp only [Except.ok.injEq, Prod.mk.injEq] at h
    obtain ⟨h1, _⟩ := h
    subst h1
    simp
  | succ n ih =>
    intro cc acc s r s1 h
    unfold Parser.protecting_chain_loop at h
    cases hns : Parser.ns cc s with
    | error e => simp [hns] at h
    | ok p =>
      obtain ⟨v, s2⟩ := p
      simp only [hns] at h
      have := ih cc (acc ++ [v]) s2 r s1 h
      simp only [List.length_append, List.length_cons, List.length_nil] at this
      omega

/-- Characterization of `template_chains`: the protecting list is empty when
`chain_count = 0` and has length `decode_target_count` otherwise. -/
theorem template_chains_protecting_length (ts : List SharedStructureTemplate)
    (dtc : Nat) (s : BitStream) (cc : Nat) (pc : List Nat)
    (ts1 : List SharedStructureTemplate) (s1 : BitStream)
    (h : Parser.template_chains ts dtc s = .ok ((cc, pc), ts1, s1)) :
    pc.length = if cc = 0 then 0 else dtc := by
  unfold Parser.template_chains at h
  cases hns : Parser.ns (dtc + 1) s with
  | error e => simp [hns] at h
  | ok p =>
    obtain ⟨ccv, s2⟩ := p
    simp only [hns] at h
    by_cases hz : ccv = 0
    · rw [if_pos hz] at h
      simp only [Except.ok.injEq, Prod.mk.injEq] at h
      obtain ⟨⟨hcc, hpc⟩, _⟩ := h
      subst hcc; subst hpc
      rw [if_pos hz]
      rfl
    · rw [if_neg hz] at h
      cases hpl : Parser.protecting_chain_loop dtc ccv [] s2 with
      | error e => simp [hpl] at h
      | ok q =>
        obtain ⟨pcv, s3⟩ := q
        simp only [hpl] at h
        cases hcf : Parser.template_chain_fdiffs ts ccv s3 with
        | error e => simp [hcf] at h
        | ok w =>
          obtain ⟨tsv, s4⟩ := w
          simp only [hcf] at h
          simp only [Except.ok.injEq, Prod.mk.injEq] at h
          obtain ⟨⟨hcc, hpc⟩, _⟩ := h
          subst hcc; subst hpc
          rw [if_neg hz]
          have := protecting_chain_loop_length dtc ccv [] s2 pcv s3 hpl
          simpa using this

/-- A successful template-layer loop always returns a nonempty template list
(the carried previous template is always appended). -/
theorem template_layers_loop_ne_nil (fuel : Nat) :
    ∀ (ts : List SharedStructureTemplate) (prev : SharedStructureTemplate)
      (s : BitStream) (r : List SharedStructureTemplate) (s1 : BitStream),
    Parser.template_layers_loop fuel ts prev s = .ok (r, s1) → r ≠ [] := by
  induction fuel with
  | zero =>
    intro ts prev s r s1 h
    unfold Parser.template_layers_loop at h
    exact Except.noConfusion h
  | succ n ih =>
    intro ts prev s r s1 h
    rw [Parser.template_layers_loop.eq_def] at h
    cases h2 : Parser.f 2 s with
    | error e => simp [h2] at h
    | ok p =>
      obtain ⟨idc, s2⟩ := p
      simp only [h2] at h
      split_ifs at h <;>
        first
          | exact ih _ _ _ _ _ h
          | exact Except.noConfusion h
          | (simp only [Except.ok.injEq, Prod.mk.injEq] at h
             obtain ⟨h1, _⟩ := h
             subst h1
             simp)

/-- `template_dtis` preserves the number of templates. -/
theorem template_dtis_length (ts : List SharedStructureTemplate) :
    ∀ (dtc : Nat) (s : BitStream) (ts1 : List SharedStructureTemplate) (s1 : BitStream),
    Parser.template_dtis ts dtc s = .ok (ts1, s1) → ts1.length = ts.length := by
  induction ts with
  | nil =>
    intro dtc s ts1 s1 h
    unfold Parser.template_dtis at h
    simp only [Except.ok.injEq, Prod.mk.injEq] at h
    obtain ⟨h1, _⟩ := h
    subst h1
    rfl
  | cons t rest ih =>
    intro dtc s ts1 s1 h
    unfold Parser.template_dtis at h
    cases hr : Parser.read_dtis_loop dtc
        t.decode_target_indication_by_decode_target_index s with
    | error e => simp [hr] at h
    | ok p =>
      obtain ⟨dtis, s2⟩ := p
      simp only [hr] at h
      cases hrec : Parser.template_dtis rest dtc s2 with
      | error e => simp [hrec] at h
      | ok q =>
        obtain ⟨rest1, s3⟩ := q
        simp only [hrec] at h
        simp only [Except.ok.injEq, Prod.mk.injEq] at h
        obtain ⟨h1, _⟩ := h
        subst h1
        simp [ih dtc s2 rest1 s3 hrec]

/-- `template_fdiffs` preserves the number of templates. -/
theorem template_fdiffs_length (ts : List SharedStructureTemplate) :
    ∀ (s : BitStream) (ts1 : List SharedStructureTemplate) (s1 : BitStream),
    Parser.template_fdiffs ts s = .ok (ts1, s1) → ts1.length = ts.length := by
  induction ts with
  | nil =>
    intro s ts1 s1 h
    unfold Parser.template_fdiffs at h
    simp only [Except.ok.injEq, Prod.mk.injEq] at h
    obtain ⟨h1, _⟩ := h
    subst h1
    rfl
  | cons t rest ih =>
    intro s ts1 s1 h
    unfold Parser.template_fdiffs at h
    cases hr : Parser.template_fdiffs_loop (s.remaining + 1)
        t.referred_frame_number_diffs s with
    | error e => simp [hr] at h
    | ok p =>
      obtain ⟨fd, s2⟩ := p
      simp only [hr] at h
      cases hrec : Parser.template_fdiffs rest s2 with
      | error e => simp [hrec] at h
      | ok q =>
        obtain ⟨rest1, s3⟩ := q
        simp only [hrec] at h
        simp only [Except.ok.injEq, Prod.mk.injEq] at h
        obtain ⟨h1, _⟩ := h
        subst h1
        simp [ih s2 rest1 s3 hrec]

/-- `template_chain_fdiffs` preserves the number of templates. -/
theorem template_chain_fdiffs_length (ts : List SharedStructureTemplate) :
    ∀ (cc : Nat) (s : BitStream) (ts1 : List SharedStructureTemplate) (s1 : BitStream),
    Parser.template_chain_fdiffs ts cc s = .ok (ts1, s1) → ts1.length = ts.length := by
  induction ts with
  | nil =>
    intro cc s ts1 s1 h
    unfold Parser.template_chain_fdiffs at h
    simp only [Except.ok.injEq, Prod.mk.injEq] at h
    obtain ⟨h1, _⟩ := h
    subst h1
    rfl
  | cons t rest ih =>
    intro cc s ts1 s1 h
    unfold Parser.template_chain_fdiffs at h
    cases hr : Parser.template_chain_fdiffs_loop cc
        t.previous_frame_number_diff_by_chain_index s with
    | error e => simp [hr] at h
    | ok p =>
      obtain ⟨cd, s2⟩ := p
      simp only [hr] at h
      cases hrec : Parser.template_chain_fdiffs rest cc s2 with
      | error e => simp [hrec] at h
      | ok q =>
        obtain ⟨rest1, s3⟩ := q
        simp only [hrec] at h
        simp only [Except.ok.injEq, Prod.mk.injEq] at h
        obtain ⟨h1, _⟩ := h
        subst h1
        simp [ih cc s2 rest1 s3 hrec]

/-- `template_chains` preserves the number of templates. -/
theorem template_chains_length (ts : List SharedStructureTemplate)
    (dtc : Nat) (s : BitStream) (cc : Nat) (pc : List Nat)
    (ts1 : List SharedStructureTemplate) (s1 : BitStream)
    (h : Parser.template_chains ts dtc s = .ok ((cc, pc), ts1, s1)) :
    ts1.length = ts.length := by
  unfold Parser.template_chains at h
  cases hns : Parser.ns (dtc + 1) s with
  | error e => simp [hns] at h
  | ok p =>
    obtain ⟨ccv, s2⟩ := p
    simp only [hns] at h
    by_cases hz : ccv = 0
    · rw [if_pos hz] at h
      simp only [Except.ok.injEq, Prod.mk.injEq] at h
      obtain ⟨_, hts, _⟩ := h
      subst hts
      rfl
    · rw [if_neg hz] at h
      cases hpl : Parser.protecting_chain_loop dtc ccv [] s2 with
      | error e => simp [hpl] at h
      | ok q =>
        obtain ⟨pcv, s3⟩ := q
        simp only [hpl] at h
        cases hcf : Parser.template_chain_fdiffs ts ccv s3 with
        | error e => simp [hcf] at h
        | ok w =>
          obtain ⟨tsv, s4⟩ := w
          simp only [hcf] at h
          simp only [Except.ok.injEq, Prod.mk.injEq] at h
          obtain ⟨_, hts, _⟩ := h
          subst hts
          exact template_chain_fdiffs_length ts ccv s3 tsv s4 hcf

/-- Length of the render-resolutions loop: one resolution per iteration. -/
theorem render_resolutions_loop_length (count : Nat) :
    ∀ (acc : List Resolution) (s : BitStream) (r : List Resolution) (s1 : BitStream),
    Parser.render_resolutions_loop count acc s = .ok (r, s1) →
    r.length = acc.length + count := by
  induction count with
  | zero =>
    intro acc s r s1 h
    unfold Parser.render_resolutions_loop at h
    simp only [Except.ok.injEq, Prod.mk.injEq] at h
    obtain ⟨h1, _⟩ := h
    subst h1
    simp
  | succ n ih =>
    intro acc s r s1 h
    unfold Parser.render_resolutions_loop at h
    cases hw : Parser.f 16 s with
    | error e => simp [hw] at h
    | ok p =>
      obtain ⟨w, s2⟩ := p
      simp only [hw] at h
      cases hh : Parser.f 16 s2 with
      | error e => simp [hh] at h
      | ok q =>
        obtain ⟨hgt, s3⟩ := q
        simp only [hh] at h
        have := ih _ s3 r s1 h
        simp only [List.length_append, List.length_cons, List.length_nil] at this
        omega

/-- C3 (amended): for every successfully decoded shared structure, the
protecting-chain-index list is empty when `chain_count = 0` and has length
`decode_target_count` when `chain_count > 0` — not unconditionally equal to
`decode_target_count` as the claim states. -/
theorem c3_protecting_chain_length (s s1 : BitStream) (S : SharedStructure)
    (h : Parser.template_dependency_structure s = .ok (S, s1)) :
    S.protecting_chain_index_by_decode_target_index.length =
      if S.chain_count = 0 then 0 else S.decode_target_count := by
  unfold Parser.template_dependency_structure at h
  cases h6 : Parser.f 6 s with
  | error e => simp [h6] at h
  | ok p6 =>
    obtain ⟨off, sA⟩ := p6
    simp only [h6] at h
    cases h5 : Parser.f 5 sA with
    | error e => simp [h5] at h
    | ok p5 =>
      obtain ⟨dt, sB⟩ := p5
      simp only [h5] at h
      cases hl : Parser.template_layers sB with
      | error e => simp [hl] at h
      | ok pl =>
        obtain ⟨ts0, sC⟩ := pl
        simp only [hl] at h
        cases hd : Parser.template_dtis ts0 (dt + 1) sC with
        | error e => simp [hd] at h
        | ok pd =>
          obtain ⟨ts1v, sD⟩ := pd
          simp only [hd] at h
          cases hf : Parser.template_fdiffs ts1v sD with
          | error e => simp [hf] at h
          | ok pf =>
            obtain ⟨ts2, sE⟩ := pf
            simp only [hf] at h
            cases hc : Parser.template_chains ts2 (dt + 1) sE with
            | error e => simp [hc] at h
            | ok pcc =>
              obtain ⟨⟨cc, pc⟩, ts3, sF⟩ := pcc
              simp only [hc] at h
              cases h1 : Parser.f1 sF with
              | error e => simp [h1] at h
              | ok p1 =>
                obtain ⟨flag, sG⟩ := p1
                simp only [h1] at h
                cases hr : Parser.resolutions_part flag ts3 sG with
                | error e => simp [hr] at h
                | ok pr =>
                  obtain ⟨res, sH⟩ := pr
                  simp only [hr] at h
                  simp only [Except.ok.injEq, Prod.mk.injEq] at h
                  obtain ⟨hS, _⟩ := h
                  subst hS
                  exact template_chains_protecting_length ts2 (dt + 1) sE cc pc ts3 sF hc

/-- Witness for C3's amended statement: the structure `0x00 0x1A 0x80` decodes
with `chain_count = 1` and a protecting list of length `decode_target_count =
1`. -/
theorem c3_protecting_chain_length_witness :
    Parser.template_dependency_structure ⟨[0x00, 0x1A, 0x80], 0⟩ =
      .ok (⟨1, 1, [0], none,
        [⟨0, 0, [.Discardable], [], [0]⟩], 0⟩, ⟨[0x80], 6⟩) ∧
    ([0] : List Nat).length = if (1 : Nat) = 0 then 0 else 1 :=
  ⟨rfl,
    c3_protecting_chain_length ⟨[0x00, 0x1A, 0x80], 0⟩ ⟨[0x80], 6⟩
      ⟨1, 1, [0], none, [⟨0, 0, [.Discardable], [], [0]⟩], 0⟩ rfl⟩

/-- C10: every successfully decoded shared structure has a nonempty template
list (the initial template exists before any `next_layer_idc` is read), so the
"resolutions present but no templates" branch is unreachable; whenever the
decoded `resolution_by_spatial_id` is present it has length exactly
`max_spatial_id + 1 ≥ 1`. -/
theorem c10_templates_nonempty_resolutions (s s1 : BitStream) (S : SharedStructure)
    (h : Parser.template_dependency_structure s = .ok (S, s1)) :
    S.template_by_id_minus_offset ≠ [] ∧
    ∀ rs, S.resolution_by_spatial_id = some rs →
      ∃ m, (S.template_by_id_minus_offset.map
          (fun template => template.spatial_id)).max? = some m ∧
        rs.length = m + 1 ∧ 1 ≤ rs.length := by
  unfold Parser.template_dependency_structure at h
  cases h6 : Parser.f 6 s with
  | error e => simp [h6] at h
  | ok p6 =>
    obtain ⟨off, sA⟩ := p6
    simp only [h6] at h
    cases h5 : Parser.f 5 sA with
    | error e => simp [h5] at h
    | ok p5 =>
      obtain ⟨dt, sB⟩ := p5
      simp only [h5] at h
      cases hl : Parser.template_layers sB with
      | error e => simp [hl] at h
      | ok pl =>
        obtain ⟨ts0, sC⟩ := pl
        simp only [hl] at h
        cases hd : Parser.template_dtis ts0 (dt + 1) sC with
        | error e => simp [hd] at h
        | ok pd =>
          obtain ⟨ts1v, sD⟩ := pd
          simp only [hd] at h
          cases hf : Parser.template_fdiffs ts1v sD with
          | error e => simp [hf] at h
          | ok pf =>
            obtain ⟨ts2, sE⟩ := pf
            simp only [hf] at h
            cases hc : Parser.template_chains ts2 (dt + 1) sE with
            | error e => simp [hc] at h
            | ok pcc =>
              obtain ⟨⟨cc, pc⟩, ts3, sF⟩ := pcc
              simp only [hc] at h
              cases h1 : Parser.f1 sF with
              | error e => simp [h1] at h
              | ok p1 =>
                obtain ⟨flag, sG⟩ := p1
                simp only [h1] at h
                cases hr : Parser.resolutions_part flag ts3 sG with
                | error e => simp [hr] at h
                | ok pr =>
                  obtain ⟨res, sH⟩ := pr
                  simp only [hr] at h
                  simp only [Except.ok.injEq, Prod.mk.injEq] at h
                  obtain ⟨hS, _⟩ := h
                  have hne0 : ts0 ≠ [] := by
                    unfold Parser.template_layers at hl
                    exact template_layers_loop_ne_nil _ _ _ _ _ _ hl
                  have hne3 : ts3 ≠ [] := by
                    have l1 := template_dtis_length ts0 (dt + 1) sC ts1v sD hd
                    have l2 := template_fdiffs_length ts1v sD ts2 sE hf
                    have l3 := template_chains_length ts2 (dt + 1) sE cc pc ts3 sF hc
                    intro hnil
                    apply hne0
                    rw [← List.length_eq_zero] at hnil ⊢
                    omega
                  subst hS
                  refine ⟨hne3, ?_⟩
                  intro rs hrs
                  have hrs1 : res = some rs := hrs
                  unfold Parser.resolutions_part at hr
                  cases flag with
                  | false =>
                    simp only [Bool.false_eq_true, if_false,
                      Except.ok.injEq, Prod.mk.injEq] at hr
                    obtain ⟨hres, _⟩ := hr
                    rw [← hres] at hrs1
                    exact Option.noConfusion hrs1
                  | true =>
                    simp only [if_true] at hr
                    cases hmax : (ts3.map (fun template => template.spatial_id)).max? with
                    | none =>
                      exfalso
                      apply hne3
                      rw [List.max?_eq_none_iff] at hmax
                      exact List.map_eq_nil_iff.mp hmax
                    | some m =>
                      simp only [hmax] at hr
                      cases hrr : Parser.render_resolutions m sG with
                      | error e => simp [hrr] at hr
                      | ok q =>
                        obtain ⟨resolutions, s8⟩ := q
                        simp only [hrr] at hr
                        simp only [Except.ok.injEq, Prod.mk.injEq] at hr
                        obtain ⟨hres, _⟩ := hr
                        rw [← hres] at hrs1
                        have hrv : resolutions = rs := Option.some.inj hrs1
                        subst hrv
                        have hlen := render_resolutions_loop_length (m + 1) [] sG
                          resolutions s8 hrr
                        exact ⟨m, rfl, by simpa using hlen, by simp at hlen ⊢; omega⟩

/-- Witness for C10: the structure `0x00 0x1A 0x40 0x00 0x00 0x00 0x00` has the
resolutions flag set; it decodes to one template and one resolution (length
`max_spatial_id + 1 = 1`). -/
theorem c10_templates_nonempty_resolutions_witness :
    Parser.template_dependency_structure ⟨[0x00, 0x1A, 0x40, 0, 0, 0, 0], 0⟩ =
      .ok (⟨1, 0, [], some [⟨1, 1⟩],
        [⟨0, 0, [.Discardable], [], []⟩], 0⟩, ⟨[0], 2⟩) ∧
    ([⟨0, 0, [.Discardable], [], []⟩] : List SharedStructureTemplate) ≠ [] :=
  ⟨rfl,
    (c10_templates_nonempty_resolutions ⟨[0x00, 0x1A, 0x40, 0, 0, 0, 0], 0⟩
      ⟨[0], 2⟩
      ⟨1, 0, [], some [⟨1, 1⟩], [⟨0, 0, [.Discardable], [], []⟩], 0⟩ rfl).1⟩

/-- The wrapper `f` can only fail with `NotEnoughBits`. -/
theorem f_error_eq (n : Nat) (s : BitStream) (e : ParseError)
    (h : Parser.f n s = .error e) : e = .NotEnoughBits := by
  unfold Parser.f at h
  cases hru : s.read_u32 n with
  | mk o s1 =>
    cases o with
    | none => simp only [hru] at h; exact (Except.error.inj h).symm
    | some v => simp [hru] at h

/-- The wrapper `f1` can only fail with `NotEnoughBits`. -/
theorem f1_error_eq (s : BitStream) (e : ParseError)
    (h : Parser.f1 s = .error e) : e = .NotEnoughBits := by
  unfold Parser.f1 at h
  cases hru : s.read_bit with
  | mk o s1 =>
    cases o with
    | none => simp only [hru] at h; exact (Except.error.inj h).symm
    | some v => simp [hru] at h

/-- `ns` can only fail with `NotEnoughBits`. -/
theorem ns_error_eq (pvc : Nat) (s : BitStream) (e : ParseError)
    (h : Parser.ns pvc s = .error e) : e = .NotEnoughBits := by
  unfold Parser.ns at h
  by_cases hz : pvc = 0
  · rw [if_pos hz] at h; exact Except.noConfusion h
  · rw [if_neg hz] at h
    cases hf : Parser.f (Parser.u8_bit_width pvc - 1) s with
    | error e1 =>
      simp only [hf] at h
      rw [← Except.error.inj h]
      exact f_error_eq _ _ _ hf
    | ok p =>
      obtain ⟨v, s1⟩ := p
      simp only [hf] at h
      split_ifs at h
      cases hf1 : Parser.f 1 s1 with
      | error e2 =>
        simp only [hf1] at h
        rw [← Except.error.inj h]
        exact f_error_eq _ _ _ hf1
      | ok q =>
        obtain ⟨b, s2⟩ := q
        simp only [hf1] at h
        exact Except.noConfusion h

/-- The DTI read loop can only fail with `NotEnoughBits`. -/
theorem read_dtis_loop_error (count : Nat) :
    ∀ (acc : List DecodeTargetIndication) (s : BitStream) (e : ParseError),
    Parser.read_dtis_loop count acc s = .error e → e = .NotEnoughBits := by
  induction count with
  | zero =>
    intro acc s e h
    unfold Parser.read_dtis_loop at h
    exact Except.noConfusion h
  | succ n ih =>
    intro acc s e h
    unfold Parser.read_dtis_loop at h
    cases hf : Parser.f 2 s with
    | error e1 =>
      simp only [hf] at h
      rw [← Except.error.inj h]
      exact f_error_eq _ _ _ hf
    | ok p =>
      obtain ⟨c, s1⟩ := p
      simp only [hf] at h
      cases hu : DecodeTargetIndication.from_u2 c with
      | none => simp only [hu] at h; exact (Except.error.inj h).symm
      | some dti =>
        simp only [hu] at h
        exact ih _ _ _ h

/-- The custom frame-fdiff loop can only fail with `NotEnoughBits`. -/
theorem frame_fdiffs_loop_error (fuel : Nat) :
    ∀ (acc : List Nat) (s : BitStream) (e : ParseError),
    Parser.frame_fdiffs_loop fuel acc s = .error e → e = .NotEnoughBits := by
  induction fuel with
  | zero =>
    intro acc s e h
    unfold Parser.frame_fdiffs_loop at h
    exact (Except.error.inj h).symm
  | succ n ih =>
    intro acc s e h
    unfold Parser.frame_fdiffs_loop at h
    cases hf : Parser.f 2 s with
    | error e1 =>
      simp only [hf] at h
      rw [← Except.error.inj h]
      exact f_error_eq _ _ _ hf
    | ok p =>
      obtain ⟨v, s1⟩ := p
      simp only [hf] at h
      split_ifs at h
      cases hf2 : Parser.f (v * 4) s1 with
      | error e2 =>
        simp only [hf2] at h
        rw [← Except.error.inj h]
        exact f_error_eq _ _ _ hf2
      | ok q =>
        obtain ⟨w, s2⟩ := q
        simp only [hf2] at h
        exact ih _ _ _ h

/-- The custom frame-chain loop can only fail with `NotEnoughBits`. -/
theorem frame_chains_loop_error (count : Nat) :
    ∀ (acc : List Nat) (s : BitStream) (e : ParseError),
    Parser.frame_chains_loop count acc s = .error e → e = .NotEnoughBits := by
  induction count with
  | zero =>
    intro acc s e h
    unfold Parser.frame_chains_loop at h
    exact Except.noConfusion h
  | succ n ih =>
    intro acc s e h
    unfold Parser.frame_chains_loop at h
    cases hf : Parser.f 8 s with
    | error e1 =>
      simp only [hf] at h
      rw [← Except.error.inj h]
      exact f_error_eq _ _ _ hf
    | ok p =>
      obtain ⟨v, s1⟩ := p
      simp only [hf] at h
      exact ih _ _ _ h

/-- Once the template lookup succeeds, `frame_dependency_definition` either
fails with `NotEnoughBits` or returns a definition whose layer ids come from
the resolved template. -/
theorem fdd_inv (S : SharedStructure) (cf : CustomFlags) (tid : Nat)
    (s : BitStream) (t : SharedStructureTemplate)
    (hget : S.template_by_id_minus_offset[(tid + 64 - S.template_id_offset) % 64]? =
      some t)
    (r : Except ParseError (FrameDependencyDefinition × BitStream))
    (hr : Parser.frame_dependency_definition S tid cf s = r) :
    r = .error .NotEnoughBits ∨
    ∃ d s3, r = .ok (d, s3) ∧
      d.spatial_id = t.spatial_id ∧ d.temporal_id = t.temporal_id := by
  unfold Parser.frame_dependency_definition at hr
  simp only [hget] at hr
  cases hx1 : (if cf.dtis then Parser.frame_dtis S.decode_target_count s
      else .ok (t.decode_target_indication_by_decode_target_index, s) :
        Except ParseError (List DecodeTargetIndication × BitStream)) with
  | error e =>
    simp only [hx1] at hr
    left
    have he : e = .NotEnoughBits := by
      cases hcd : cf.dtis
      · rw [hcd] at hx1; simp at hx1
      · rw [hcd] at hx1
        simp only [if_true] at hx1
        unfold Parser.frame_dtis at hx1
        exact read_dtis_loop_error _ _ _ _ hx1
    rw [← hr, he]
  | ok p1 =>
    obtain ⟨dtis, s1⟩ := p1
    simp only [hx1] at hr
    cases hx2 : (if cf.fdiffs then Parser.frame_fdiffs s1
        else .ok (t.referred_frame_number_diffs, s1) :
          Except ParseError (List Nat × BitStream)) with
    | error e =>
      simp only [hx2] at hr
      left
      have he : e = .NotEnoughBits := by
        cases hcf : cf.fdiffs
        · rw [hcf] at hx2; simp at hx2
        · rw [hcf] at hx2
          simp only [if_true] at hx2
          unfold Parser.frame_fdiffs at hx2
          exact frame_fdiffs_loop_error _ _ _ _ hx2
      rw [← hr, he]
    | ok p2 =>
      obtain ⟨fdiffs, s2⟩ := p2
      simp only [hx2] at hr
      cases hx3 : (if cf.chains then Parser.frame_chains S.chain_count s2
          else .ok (t.previous_frame_number_diff_by_chain_index, s2) :
            Except ParseError (List Nat × BitStream)) with
      | error e =>
        simp only [hx3] at hr
        left
        have he : e = .NotEnoughBits := by
          cases hcc : cf.chains
          · rw [hcc] at hx3; simp at hx3
          · rw [hcc] at hx3
            simp only [if_true] at hx3
            unfold Parser.frame_chains at hx3
            exact frame_chains_loop_error _ _ _ _ hx3
        rw [← hr, he]
      | ok p3 =>
        obtain ⟨chains, s3⟩ := p3
        simp only [hx3] at hr
        right
        exact ⟨_, s3, hr.symm, rfl, rfl⟩

/-- C7: with `template_id` and `template_id_offset` both from 6-bit reads (so
below 64, and the `u8` arithmetic cannot wrap), the frame dependency definition
fails with `InvalidTemplateId` exactly when
`tidx = (template_id + 64 - template_id_offset) % 64` is at or beyond the
template table; and on success the definition's layer ids come from the
template resolved at `tidx`. -/
theorem c7_invalid_template_id (S : SharedStructure) (cf : CustomFlags)
    (tid : Nat) (s : BitStream)
    (_h1 : tid < 64) (_h2 : S.template_id_offset < 64) :
    (Parser.frame_dependency_definition S tid cf s = .error .InvalidTemplateId ↔
      S.template_by_id_minus_offset.length ≤ (tid + 64 - S.template_id_offset) % 64) ∧
    ∀ out s1, Parser.frame_dependency_definition S tid cf s = .ok (out, s1) →
      ∃ template,
        S.template_by_id_minus_offset[(tid + 64 - S.template_id_offset) % 64]? =
          some template ∧
        out.spatial_id = template.spatial_id ∧
        out.temporal_id = template.temporal_id := by
  cases hget : S.template_by_id_minus_offset[(tid + 64 - S.template_id_offset) % 64]? with
  | none =>
    have hlen := List.getElem?_eq_none_iff.mp hget
    constructor
    · constructor
      · intro _; exact hlen
      · intro _
        unfold Parser.frame_dependency_definition
        simp only [hget]
    · intro out s1 hok
      exfalso
      unfold Parser.frame_dependency_definition at hok
      simp only [hget] at hok
      exact Except.noConfusion hok
  | some t =>
    have hlt := (List.getElem?_eq_some.mp hget).1
    rcases fdd_inv S cf tid s t hget _ rfl with hne | ⟨d, s3, hok, hsp, htp⟩
    · constructor
      · constructor
        · intro heq
          rw [heq] at hne
          have := Except.error.inj hne
          exact absurd this (by simp)
        · intro hle
          exact absurd hle (by omega)
      · intro out s1 hok2
        rw [hok2] at hne
        exact Except.noConfusion hne
    · constructor
      · constructor
        · intro heq
          rw [heq] at hok
          exact Except.noConfusion hok
        · intro hle
          exact absurd hle (by omega)
      · intro out s1 hok2
        rw [hok2] at hok
        simp only [Except.ok.injEq, Prod.mk.injEq] at hok
        obtain ⟨ho, _⟩ := hok
        subst ho
        exact ⟨t, rfl, hsp, htp⟩

/-- Witness for C7: against the cached structure `Sone` (one template, offset
0), `template_id = 1` maps to `tidx = 1`, beyond the table, so the frame
dependency definition fails with `InvalidTemplateId`. -/
theorem c7_invalid_template_id_witness :
    Parser.frame_dependency_definition Sone 1
      { dtis := false, fdiffs := false, chains := false } ⟨[], 0⟩ =
      .error .InvalidTemplateId :=
  (c7_invalid_template_id Sone
    { dtis := false, fdiffs := false, chains := false } 1 ⟨[], 0⟩
    (by decide) (by decide)).1.mpr (by decide)

/-- The code's per-target fold equals the spec's component-wise maxima over
the filtered (referencing) templates. -/
theorem layer_fold_eq (i : Nat) (ts : List SharedStructureTemplate) :
    ∀ (a b : Nat),
    ts.foldl (fun (acc : Nat × Nat) template =>
        match template.decode_target_indication_by_decode_target_index[i]? with
        | some dti =>
          if dti ≠ DecodeTargetIndication.NotPresent then
            (max acc.1 template.spatial_id, max acc.2 template.temporal_id)
          else acc
        | none => acc) (a, b) =
      (((ts.filter (fun template =>
          match template.decode_target_indication_by_decode_target_index[i]? with
          | some dti => decide (dti ≠ DecodeTargetIndication.NotPresent)
          | none => false)).map (fun template => template.spatial_id)).foldl max a,
       ((ts.filter (fun template =>
          match template.decode_target_indication_by_decode_target_index[i]? with
          | some dti => decide (dti ≠ DecodeTargetIndication.NotPresent)
          | none => false)).map (fun template => template.temporal_id)).foldl max b) := by
  induction ts with
  | nil => intro a b; simp
  | cons t rest ih =>
    intro a b
    simp only [List.foldl_cons, List.filter_cons]
    cases hd : t.decode_target_indication_by_decode_target_index[i]? with
    | none =>
      simp only [hd]
      exact ih a b
    | some dti =>
      simp only [hd]
      by_cases hnp : dti = DecodeTargetIndication.NotPresent
      · subst hnp
        simp only [ne_eq, not_true_eq_false, if_false, decide_False]
        simpa using ih a b
      · simp only [ne_eq, hnp, not_false_eq_true, if_true, decide_True]
        simpa using ih (max a t.spatial_id) (max b t.temporal_id)

/-- `decode_target_layers` has one entry per decode target. -/
theorem decode_target_layers_length (S : SharedStructure) :
    S.decode_target_layers.length = S.decode_target_count := by
  unfold SharedStructure.decode_target_layers
  simp

/-- Each entry of `decode_target_layers` is the spec's component-wise maximum
for that decode target. -/
theorem decode_target_layers_getElem (S : SharedStructure) (i : Nat)
    (hi : i < S.decode_target_layers.length) :
    S.decode_target_layers[i] = specDecodeTargetLayer S i := by
  unfold SharedStructure.decode_target_layers at hi ⊢
  unfold specDecodeTargetLayer
  simp only [List.getElem_map, List.getElem_range]
  exact layer_fold_eq i _ 0 0

/-- C9: every successfully parsed descriptor has `decode_targets` of length
equal to the effective shared structure's `decode_target_count` (the structure
carried by this packet, else the caller-supplied one), and the layer ids of
entry `i` are the component-wise maximum, starting at `(0,0)`, over templates
whose DTI at `i` exists and is not `NotPresent`. -/
theorem c9_decode_targets (sdd : SerializedDepdendencyDescriptor)
    (ls : Option SharedStructure) (lb : Option Nat)
    (d : ParsedDependencyDescriptor) (h : sdd.parse ls lb = .ok d) :
    ∃ S, (d.updated_shared_structure = some S ∨
        (d.updated_shared_structure = none ∧ ls = some S)) ∧
      d.decode_targets.length = S.decode_target_count ∧
      ∀ i, (hi : i < d.decode_targets.length) →
        ((d.decode_targets[i]).spatial_id, (d.decode_targets[i]).temporal_id) =
          specDecodeTargetLayer S i := by
  unfold SerializedDepdendencyDescriptor.parse at h
  cases hdd : Parser.dependency_descriptor ls lb (BitStream.new sdd.as_bytes) with
  | error e => simp [hdd] at h
  | ok p =>
    obtain ⟨d0, sEnd⟩ := p
    simp only [hdd] at h
    have hd0 : d0 = d := Except.ok.inj h
    subst hd0
    unfold Parser.dependency_descriptor at hdd
    cases hfp : Parser.first_phase (BitStream.new sdd.as_bytes) with
    | error e => simp [hfp] at hdd
    | ok q =>
      obtain ⟨⟨mf, cf, ef⟩, s1⟩ := q
      simp only [hfp] at hdd
      cases hss : (ef.bind ExtendedFields.shared_structure).or ls with
      | none => simp [hss] at hdd
      | some S =>
        simp only [hss] at hdd
        cases hbm : (ef.bind ExtendedFields.active_decode_targets_bitmask).or lb with
        | none => simp [hbm] at hdd
        | some m =>
          simp only [hbm] at hdd
          cases hfd : Parser.frame_dependency_definition S mf.template_id cf s1 with
          | error e => simp [hfd] at hdd
          | ok w =>
            obtain ⟨defn, s2⟩ := w
            simp only [hfd] at hdd
            simp only [Except.ok.injEq, Prod.mk.injEq] at hdd
            obtain ⟨hd, _⟩ := hdd
            subst hd
            refine ⟨S, ?_, ?_, ?_⟩
            · cases hb : ef.bind ExtendedFields.shared_structure with
              | some S0 =>
                rw [hb] at hss
                simp only [Option.or, Option.some.injEq] at hss
                left
                exact congrArg some hss
              | none =>
                rw [hb] at hss
                rw [Option.none_or] at hss
                right
                exact ⟨rfl, hss⟩
            · show (S.decode_target_layers.enum.map _).length = S.decode_target_count
              rw [List.length_map, List.enum_length, decode_target_layers_length]
            · intro i hi
              have hi1 : i < S.decode_target_layers.length := by
                simpa [List.length_map, List.enum_length] using hi
              simp only [List.getElem_map, List.getElem_enum]
              rw [decode_target_layers_getElem S i hi1]

/-- Witness for C9: the scenario-3 packet `0xC0 0x00 0x00` against `Sone`
yields the descriptor `dOne`, whose single decode target carries the layer
maxima of `Sone`. -/
theorem c9_decode_targets_witness :
    (SerializedDepdendencyDescriptor.mk [0xC0, 0x00, 0x00]).parse
      (some Sone) (some 1) = .ok dOne ∧
    ∃ S, (dOne.updated_shared_structure = some S ∨
        (dOne.updated_shared_structure = none ∧
          (some Sone : Option SharedStructure) = some S)) ∧
      dOne.decode_targets.length = S.decode_target_count ∧
      ∀ i, (hi : i < dOne.decode_targets.length) →
        ((dOne.decode_targets[i]).spatial_id, (dOne.decode_targets[i]).temporal_id) =
          specDecodeTargetLayer S i :=
  ⟨rfl,
    c9_decode_targets (SerializedDepdendencyDescriptor.mk [0xC0, 0x00, 0x00])
      (some Sone) (some 1) dOne rfl⟩

/-- A failing sub-byte read leaves the reader state unchanged (failure happens
before any mutation). -/
theorem read_u8_fail (s : BitStream) (k : Nat) (hk : 0 < k)
    (hcond : 8 < s.bit_index + k ∨ s.bytes = []) :
    s.read_u8_up_until_end_of_byte0 k = (none, s) := by
  simp only [BitStream.read_u8_up_until_end_of_byte0]
  rw [if_neg (by omega)]
  by_cases h8 : 8 < s.bit_index + k
  · rw [if_pos (by omega)]
  · rw [if_neg (by omega)]
    have hnil : s.bytes = [] := by
      rcases hcond with h | h
      · exact absurd h h8
      · exact h
    rw [hnil]

/-- A sub-byte read that fits the current byte succeeds and advances by `k`
bits. -/
theorem read_u8_ok (s : BitStream) (k : Nat) (hk : 0 < k)
    (h8 : s.bit_index + k ≤ 8) (hby : s.bytes ≠ []) :
    ∃ v, s.read_u8_up_until_end_of_byte0 k =
      (some v, if 8 ≤ s.bit_index + k then (⟨s.bytes.tail, 0⟩ : BitStream)
        else ⟨s.bytes, s.bit_index + k⟩) := by
  obtain ⟨bytes, bi⟩ := s
  cases bytes with
  | nil => exact absurd rfl hby
  | cons b rest =>
    simp only [BitStream.read_u8_up_until_end_of_byte0,
      BitStream.read_ms_bits_of_byte] at *
    split_ifs <;> first | exact ⟨_, rfl⟩ | (exfalso; omega)

/-- An aligned whole-byte read succeeds exactly up to the buffer length. -/
theorem read_aligned_ok (bytes : List Nat) (k : Nat) (hk : k ≤ bytes.length) :
    ∃ v, BitStream.read_u32_from_aligned_bytes ⟨bytes, 0⟩ k =
      (some v, ⟨bytes.drop k, 0⟩) := by
  simp only [BitStream.read_u32_from_aligned_bytes, BitStream.read_aligned_bytes]
  by_cases hz : k = 0
  · subst hz
    rw [if_pos rfl]
    exact ⟨0, rfl⟩
  · rw [if_neg hz, if_neg (by omega), if_neg (by omega)]
    exact ⟨_, rfl⟩

/-- An aligned whole-byte read past the buffer fails without moving. -/
theorem read_aligned_fail (bytes : List Nat) (k : Nat) (hk : bytes.length < k) :
    BitStream.read_u32_from_aligned_bytes ⟨bytes, 0⟩ k = (none, ⟨bytes, 0⟩) := by
  simp only [BitStream.read_u32_from_aligned_bytes, BitStream.read_aligned_bytes]
  rw [if_neg (by omega), if_neg (by omega), if_pos (by omega)]

/-- C2 (amended): `read_u32(n)` fails exactly when the read would cross past
the end of the buffer (`remaining < n`); but on failure the reader state is
only guaranteed unchanged when the first internal span itself fails — spans
already consumed stay consumed (see the counterexample), which is unobservable
to the parser because it aborts on the first failure. -/
theorem c2_read_u32_none_iff (s : BitStream) (n : Nat)
    (hbi : s.bit_index < 8) (_hn : n ≤ 32) :
    (s.read_u32 n).1 = none ↔ s.remaining < n := by
  obtain ⟨bytes, bi⟩ := s
  simp only [BitStream.remaining] at *
  simp only [BitStream.read_u32]
  by_cases hn0 : n = 0
  · subst hn0
    simp [BitStream.read_u8_up_until_end_of_byte0,
      BitStream.read_u32_from_aligned_bytes]
  · have hnpos : 0 < n := by omega
    cases bytes with
    | nil =>
      rw [read_u8_fail ⟨[], bi⟩ (min (8 - bi) n)
        (Nat.lt_min.mpr ⟨by omega, by omega⟩) (Or.inr rfl)]
      refine iff_of_true rfl (by simp; omega)
    | cons b rest =>
      by_cases hsmall : n ≤ 8 - bi
      · rw [Nat.min_eq_right hsmall]
        obtain ⟨v, hv⟩ := read_u8_ok ⟨b :: rest, bi⟩ n hnpos
          (by simp only []; omega) (by simp)
        simp only [hv]
        rw [show n - (8 - bi) = 0 from by omega]
        simp only [Nat.zero_mod, Nat.sub_zero, Nat.sub_self, Nat.zero_div]
        simp only [BitStream.read_u32_from_aligned_bytes, if_pos rfl,
          BitStream.read_u8_up_until_end_of_byte0]
        refine iff_of_false (by simp) (by simp only [List.length_cons]; omega)
      · have hbig : 8 - bi < n := by omega
        rw [Nat.min_eq_left (by omega)]
        obtain ⟨v, hv⟩ := read_u8_ok ⟨b :: rest, bi⟩ (8 - bi) (by omega)
          (by simp only []; omega) (by simp)
        rw [if_pos (show 8 ≤ bi + (8 - bi) from by omega)] at hv
        simp only [List.tail_cons] at hv
        simp only [hv]
        by_cases hmb : (n - (8 - bi) - (n - (8 - bi)) % 8) / 8 ≤ rest.length
        · obtain ⟨w, hw⟩ := read_aligned_ok rest _ hmb
          simp only [hw]
          by_cases hr0 : (n - (8 - bi)) % 8 = 0
          · rw [hr0]
            simp only [BitStream.read_u8_up_until_end_of_byte0, if_pos rfl]
            refine iff_of_false (by simp) (by simp only [List.length_cons]; omega)
          · by_cases hlt : (n - (8 - bi) - (n - (8 - bi)) % 8) / 8 < rest.length
            · obtain ⟨u, hu⟩ := read_u8_ok
                ⟨rest.drop ((n - (8 - bi) - (n - (8 - bi)) % 8) / 8), 0⟩
                ((n - (8 - bi)) % 8) (by omega)
                (by simp only []; omega)
                (by
                  intro hd
                  have hd2 : List.drop ((n - (8 - bi) - (n - (8 - bi)) % 8) / 8)
                      rest = [] := hd
                  have hlen := List.length_drop
                    ((n - (8 - bi) - (n - (8 - bi)) % 8) / 8) rest
                  rw [hd2] at hlen
                  simp at hlen
                  omega)
              simp only [hu]
              refine iff_of_false (by simp) (by simp only [List.length_cons]; omega)
            · have heq : (n - (8 - bi) - (n - (8 - bi)) % 8) / 8 = rest.length := by
                omega
              rw [read_u8_fail _ _ (by omega)
                (Or.inr (by
                  simp only []
                  rw [heq]
                  exact List.drop_length rest))]
              refine iff_of_true rfl (by simp only [List.length_cons]; omega)
        · rw [read_aligned_fail rest _ (by omega)]
          refine iff_of_true rfl (by simp only [List.length_cons]; omega)

/-- Witness for C2's amended statement: on a one-byte buffer, a 9-bit read has
`remaining = 8 < 9` and indeed fails. -/
theorem c2_read_u32_none_iff_witness :
    (⟨[0], 0⟩ : BitStream).bit_index < 8 ∧ (9 : Nat) ≤ 32 ∧
    ((((⟨[0], 0⟩ : BitStream).read_u32 9).1 = none) ↔
      (⟨[0], 0⟩ : BitStream).remaining < 9) :=
  ⟨by decide, by decide, c2_read_u32_none_iff ⟨[0], 0⟩ 9 (by decide) (by decide)⟩

/-- C6: parsing the three-byte packet `0xC0 0x00 0x00` (start_of_frame 1,
end_of_frame 1, template_id 0, frame_number 0, no extended bits) with no cached
shared structure fails with `UnknownSharedStructure`; and in general, whenever
the mandatory/extended phase succeeds carrying no shared structure and the
caller supplies none, the parse returns `UnknownSharedStructure`. -/
theorem c6_unknown_shared_structure :
    (SerializedDepdendencyDescriptor.mk [0xC0, 0x00, 0x00]).parse none none =
      .error .UnknownSharedStructure ∧
    ∀ (buf : List Nat) (lb : Option Nat) (mf : MandatoryFields) (cf : CustomFlags)
      (ef : Option ExtendedFields) (s1 : BitStream),
      Parser.first_phase (BitStream.new buf) = .ok ((mf, cf, ef), s1) →
      ef.bind ExtendedFields.shared_structure = none →
      (SerializedDepdendencyDescriptor.mk buf).parse none lb =
        .error .UnknownSharedStructure := by
  refine ⟨rfl, ?_⟩
  intro buf lb mf cf ef s1 h hnone
  have hdd : Parser.dependency_descriptor none lb (BitStream.new buf) =
      .error .UnknownSharedStructure := by
    unfold Parser.dependency_descriptor
    rw [h]
    simp only [hnone, Option.or]
  unfold SerializedDepdendencyDescriptor.parse
  simp only [SerializedDepdendencyDescriptor.as_bytes]
  rw [hdd]

/-- Witness for C6 at a second concrete input: `0x00 0x01 0x02` parses its
mandatory fields, carries no extended fields at all, and with no cached
structure the parse fails with `UnknownSharedStructure`. -/
theorem c6_unknown_shared_structure_witness :
    Parser.first_phase (BitStream.new [0x00, 0x01, 0x02]) =
      .ok (({ start_of_frame := false, end_of_frame := false,
              frame_number := 258, template_id := 0 },
        { dtis := false, fdiffs := false, chains := false }, none), ⟨[], 0⟩) ∧
    (SerializedDepdendencyDescriptor.mk [0x00, 0x01, 0x02]).parse none none =
      .error .UnknownSharedStructure :=
  ⟨rfl,
    c6_unknown_shared_structure.2 [0x00, 0x01, 0x02] none
      { start_of_frame := false, end_of_frame := false,
        frame_number := 258, template_id := 0 }
      { dtis := false, fdiffs := false, chains := false } none ⟨[], 0⟩ rfl rfl⟩

/-- C8: for any byte buffer `B` that parses successfully given some context,
storing `B` through `parse_value` and then calling `write_to` with a
destination of length exactly `B.length` writes `B` back byte-for-byte and
returns `B.length`. -/
theorem c8_write_to_roundtrip (B : List Nat) (ls : Option SharedStructure)
    (lb : Option Nat) (ev : ExtensionValues) (dest : List Nat)
    (_hp : ∃ d, (SerializedDepdendencyDescriptor.mk B).parse ls lb = .ok d)
    (hlen : dest.length = B.length) :
    Serializer.write_to dest (Serializer.parse_value B ev).2 = (B, B.length) := by
  unfold Serializer.write_to Serializer.parse_value
  simp only [SerializedDepdendencyDescriptor.as_bytes]
  rw [if_neg (by omega)]
  rw [List.drop_eq_nil_of_le (le_of_eq hlen), List.append_nil]

/-- Witness for C8: the buffer `0xC0 0x00 0x00` parses successfully against the
cached structure `Sone` with bitmask 1, and `parse_value` followed by
`write_to` into a 3-byte destination reproduces it, returning 3. -/
theorem c8_write_to_roundtrip_witness :
    (∃ d, (SerializedDepdendencyDescriptor.mk [0xC0, 0x00, 0x00]).parse
      (some Sone) (some 1) = .ok d) ∧
    ([7, 7, 7] : List Nat).length = ([0xC0, 0x00, 0x00] : List Nat).length ∧
    Serializer.write_to [7, 7, 7]
      (Serializer.parse_value [0xC0, 0x00, 0x00] ⟨none⟩).2 =
      ([0xC0, 0x00, 0x00], 3) :=
  ⟨⟨_, rfl⟩, rfl,
    c8_write_to_roundtrip [0xC0, 0x00, 0x00] (some Sone) (some 1) ⟨none⟩
      [7, 7, 7] ⟨_, rfl⟩ rfl⟩

/-- C4: one step of template layer expansion.  When the 2-bit read yields
`next_layer_idc = 2`, the loop appends a template with `temporal_id = 0` and
`spatial_id = previous.temporal_id + 1` (the source's quirk: computed from the
previous *temporal* id), failing with `InvalidSpatialId` when the 8-bit
addition would overflow (`temporal_id = 255`); when it yields
`next_layer_idc = 1`, it appends a template with `temporal_id` incremented,
failing with `InvalidTemporalId` on overflow. -/
theorem c4_template_layers_step (fuel : Nat)
    (templates : List SharedStructureTemplate) (prev : SharedStructureTemplate)
    (s s1 : BitStream) :
    (Parser.f 2 s = .ok (2, s1) →
      (prev.temporal_id < 255 →
        Parser.template_layers_loop (fuel + 1) templates prev s =
          Parser.template_layers_loop fuel (templates ++ [prev])
            { prev with spatial_id := prev.temporal_id + 1, temporal_id := 0 } s1) ∧
      (255 ≤ prev.temporal_id →
        Parser.template_layers_loop (fuel + 1) templates prev s =
          .error .InvalidSpatialId)) ∧
    (Parser.f 2 s = .ok (1, s1) →
      (prev.temporal_id < 255 →
        Parser.template_layers_loop (fuel + 1) templates prev s =
          Parser.template_layers_loop fuel (templates ++ [prev])
            { prev with temporal_id := prev.temporal_id + 1 } s1) ∧
      (255 ≤ prev.temporal_id →
        Parser.template_layers_loop (fuel + 1) templates prev s =
          .error .InvalidTemporalId)) := by
  constructor
  · intro h2
    constructor
    · intro hlt
      conv_lhs => rw [Parser.template_layers_loop.eq_def]
      simp only [h2]
      split_ifs <;> first | rfl | omega | (exfalso; assumption)
    · intro hge
      conv_lhs => rw [Parser.template_layers_loop.eq_def]
      simp only [h2]
      split_ifs <;> first | rfl | omega | (exfalso; assumption)
  · intro h1
    constructor
    · intro hlt
      conv_lhs => rw [Parser.template_layers_loop.eq_def]
      simp only [h1]
      split_ifs <;> first | rfl | omega | (exfalso; assumption)
    · intro hge
      conv_lhs => rw [Parser.template_layers_loop.eq_def]
      simp only [h1]
      split_ifs <;> first | rfl | omega | (exfalso; assumption)

/-- Witness for C4 at a concrete input: on the stream `[0x80]` the 2-bit read
yields `next_layer_idc = 2`, and one loop step from the initial template
appends the template `(spatial_id 1, temporal_id 0)`. -/
theorem c4_template_layers_step_witness :
    Parser.f 2 ⟨[0x80], 0⟩ = .ok (2, ⟨[0x80], 2⟩) ∧ (0 : Nat) < 255 ∧
    Parser.template_layers_loop 2 []
      { spatial_id := 0, temporal_id := 0,
        decode_target_indication_by_decode_target_index := [],
        referred_frame_number_diffs := [],
        previous_frame_number_diff_by_chain_index := [] } ⟨[0x80], 0⟩ =
    Parser.template_layers_loop 1
      [{ spatial_id := 0, temporal_id := 0,
         decode_target_indication_by_decode_target_index := [],
         referred_frame_number_diffs := [],
         previous_frame_number_diff_by_chain_index := [] }]
      { spatial_id := 1, temporal_id := 0,
        decode_target_indication_by_decode_target_index := [],
        referred_frame_number_diffs := [],
        previous_frame_number_diff_by_chain_index := [] } ⟨[0x80], 2⟩ :=
  ⟨rfl, by decide,
    ((c4_template_layers_step 1 []
      { spatial_id := 0, temporal_id := 0,
        decode_target_indication_by_decode_target_index := [],
        referred_frame_number_diffs := [],
        previous_frame_number_diff_by_chain_index := [] }
      ⟨[0x80], 0⟩ ⟨[0x80], 2⟩).1 rfl).1 (by decide)⟩

set_option maxRecDepth 100000 in
set_option maxHeartbeats 4000000 in
/-- C5 (amended): for every `n ∈ 1..=64`, running `ns(n)` over all bit-strings
of exactly `⌈log2 n⌉` bits produces only values in `0..n-1` and every such
value; a value is produced twice when it is below `2^⌈log2 n⌉ - n` and exactly
once otherwise (in particular exactly once for every value iff `n` is a power
of two). -/
theorem c5_ns_exhaustive_check : nsAllCheck = true := by decide

end DepDesc
